import Mathlib

/-!
Verification of `create_presentation.py`: a single-file script that builds a
fixed PowerPoint deck (title slide, bulleted content slides, table slides)
with python-pptx and saves it to a fixed path.

The shallow embedding models the observable state built through the
python-pptx API: a presentation is a list of slides; a slide carries its
layout index, the title text, the optional second placeholder (subtitle or
body text frame) and the tables added to it.  Text frames are lists of
paragraphs, paragraphs are lists of runs, runs carry a font whose `bold`,
colour and size fields are `Option`s (python-pptx leaves them `None`, i.e.
inherited, unless set).  Lengths (EMU) are naturals; every inch literal in
the script is a multiple of 0.1 in, so `Inches10 t` stands for
`Inches(t / 10)` = `t * 91440` EMU.  Fallible index accesses
(`data[0]`, `table.columns[i]`, `table.rows[i].cells[j]`) are modelled with
`Option`; the absence of any try/except in the script is modelled by `Except`
propagation in `main`.
-/

namespace CreatePres

/-- One tenth of an inch in EMU: `Inches(t/10)` for the script's literals. -/
def Inches10 (t : Nat) : Nat := t * 91440

/-- A run's font: `None` fields are inherited (python-pptx default). -/
structure Font where
  bold : Option Bool
  colorRGB : Option (Nat × Nat × Nat)
  sizePt : Option Nat
deriving Repr, DecidableEq

/-- Font of a freshly written run (nothing set explicitly). -/
def defaultFont : Font := { bold := none, colorRGB := none, sizePt := none }

/-- A text run. -/
structure Run where
  text : String
  font : Font
deriving Repr, DecidableEq

/-- A paragraph: its runs and its indent level. -/
structure Paragraph where
  runs : List Run
  level : Nat
deriving Repr, DecidableEq

/-- A fresh, empty paragraph (as produced by `clear()` or a new text frame). -/
def blankParagraph : Paragraph := { runs := [], level := 0 }

/-- A text frame: a non-empty list of paragraphs in python-pptx; here a list. -/
structure TextFrame where
  paragraphs : List Paragraph
deriving Repr, DecidableEq

/-- The body placeholder's text frame as the slide layout provides it. -/
def layoutBodyTF : TextFrame := { paragraphs := [blankParagraph] }

/-- Result of the `text` setter on a text frame: one paragraph, one run. -/
def tfWithText (s : String) : TextFrame :=
  { paragraphs := [{ runs := [{ text := s, font := defaultFont }], level := 0 }] }

/-- A cell fill: `isSolid` records whether `fill.solid()` was called. -/
structure Fill where
  isSolid : Bool
  foreColor : Option (Nat × Nat × Nat)
deriving Repr, DecidableEq

/-- A table cell: its text frame and its fill. -/
structure Cell where
  tf : TextFrame
  fill : Fill
deriving Repr, DecidableEq

/-- A freshly created table cell: empty paragraph, inherited fill. -/
def newCell : Cell :=
  { tf := { paragraphs := [blankParagraph] }, fill := { isSolid := false, foreColor := none } }

/-- A table shape: geometry, column widths (EMU) and the cell grid. -/
structure Table where
  nRows : Nat
  nCols : Nat
  left : Nat
  top : Nat
  width : Nat
  height : Nat
  colWidths : List Nat
  cells : List (List Cell)
deriving Repr, DecidableEq

/-- `shapes.add_table(rows, cols, left, top, width, height)`: an empty grid,
the total width split evenly over the columns. -/
def addTable (rows cols left top width height : Nat) : Table :=
  { nRows := rows
    nCols := cols
    left := left
    top := top
    width := width
    height := height
    colWidths := List.replicate cols (width / cols)
    cells := List.replicate rows (List.replicate cols newCell) }

/-- A slide: layout index, title text, the second placeholder's text frame
(subtitle on layout 0, body on layout 1, absent on layout 5) and the table
shapes added to it. -/
structure Slide where
  layoutIdx : Nat
  titleText : String
  placeholder1 : Option TextFrame
  tables : List Table
deriving Repr, DecidableEq

/-- The presentation object: slide size and the slide list in append order. -/
structure Presentation where
  slideWidth : Nat
  slideHeight : Nat
  slides : List Slide
deriving Repr, DecidableEq

/-- `create_title_slide(prs, title, subtitle)`: add a layout-0 slide, set its
title and its subtitle placeholder. -/
def create_title_slide (prs : Presentation) (title subtitle : String) : Presentation :=
  { prs with slides := prs.slides ++
      [{ layoutIdx := 0
         titleText := title
         placeholder1 := some (tfWithText subtitle)
         tables := [] }] }

/-- The paragraph written for one `(level, text)` bullet pair: `p.text = text`
(one run, nothing on its font) then `p.level = level`. -/
def bulletParagraph (q : Nat × String) : Paragraph :=
  { runs := [{ text := q.2, font := defaultFont }], level := q.1 }

/-- `tf.add_paragraph()` followed by setting its text and level. -/
def appendBullet (tf : TextFrame) (q : Nat × String) : TextFrame :=
  { paragraphs := tf.paragraphs ++ [bulletParagraph q] }

/-- The loop over `bullet_points`: the first pair overwrites `paragraphs[0]`
of the cleared frame, every later pair is added with `add_paragraph()`. -/
def applyBullets (tf : TextFrame) : List (Nat × String) → TextFrame
  | [] => tf
  | q :: rest =>
      rest.foldl appendBullet { paragraphs := tf.paragraphs.set 0 (bulletParagraph q) }

/-- `create_content_slide(prs, title, bullet_points=None)`: add a layout-1
slide and set its title; only when `bullet_points` is truthy (a non-empty
list) clear the body text frame and write one paragraph per pair. -/
def create_content_slide (prs : Presentation) (title : String)
    (bullet_points : Option (List (Nat × String))) : Presentation :=
  let body : TextFrame :=
    match bullet_points with
    | some (q :: rest) => applyBullets { paragraphs := [blankParagraph] } (q :: rest)
    | _ => layoutBodyTF
  { prs with slides := prs.slides ++
      [{ layoutIdx := 1, titleText := title, placeholder1 := some body, tables := [] }] }

/-- Font mutation on every run of a header cell: bold, white, 12 pt. -/
def setHeaderRun (r : Run) : Run :=
  { r with font := { r.font with
      bold := some true
      colorRGB := some (255, 255, 255)
      sizePt := some 12 } }

/-- Font mutation on every run of a data cell: 11 pt only. -/
def setBodyRun (r : Run) : Run :=
  { r with font := { r.font with sizePt := some 11 } }

/-- Apply a run mutation to every run of every paragraph of a text frame. -/
def mapRuns (f : Run → Run) (tf : TextFrame) : TextFrame :=
  { paragraphs := tf.paragraphs.map (fun p => { p with runs := p.runs.map f }) }

/-- The body of the fill loop for one cell: `cell.text = str(cell_text)`,
then header formatting (solid blue fill, bold white 12 pt runs) when the row
index is 0, else 11 pt runs. -/
def fillCell (t : String) (isHeader : Bool) (c : Cell) : Cell :=
  let c1 : Cell := { c with tf := tfWithText t }
  if isHeader then
    { c1 with
        fill := { isSolid := true, foreColor := some (68, 114, 196) }
        tf := mapRuns setHeaderRun c1.tf }
  else
    { c1 with tf := mapRuns setBodyRun c1.tf }

/-- The inner loop `for j, cell_text in enumerate(row)`: writes the row's
texts into `table.rows[i].cells[j]` left to right; `none` models the
IndexError when the row is longer than the cell row. -/
def fillCells : List Cell → List String → Bool → Option (List Cell)
  | cs, [], _ => some cs
  | [], _ :: _, _ => none
  | c :: cs, t :: ts, hdr =>
      (fillCells cs ts hdr).map (fun rest => fillCell t hdr c :: rest)

/-- The outer loop `for i, row in enumerate(data)`: the first data row is the
header row (`i == 0`), the rest are data rows. -/
def fillRows : List (List Cell) → List (List String) → Bool → Option (List (List Cell))
  | g, [], _ => some g
  | [], _ :: _, _ => none
  | r :: g, d :: ds, isFirst =>
      (fillCells r d isFirst).bind (fun r2 =>
        (fillRows g ds false).map (fun g2 => r2 :: g2))

/-- The `if col_widths:` block: truthy (non-empty) widths overwrite
`table.columns[i].width` positionally; `none` models the IndexError when
`col_widths` is longer than the column list. -/
def setWidths : List Nat → List Nat → Option (List Nat)
  | ws, [] => some ws
  | [], _ :: _ => none
  | _ :: ws, u :: us => (setWidths ws us).map (fun rest => u :: rest)

/-- Column widths after the `if col_widths:` block (widths in tenths of an
inch, converted by `Inches`); `None` or `[]` leaves the initial widths. -/
def widthsResult (initial : List Nat) (col_widths : Option (List Nat)) : Option (List Nat) :=
  match col_widths with
  | some (u :: us) => setWidths initial ((u :: us).map Inches10)
  | _ => some initial

/-- `create_table_slide(prs, title, data, col_widths=None)`: add a layout-5
slide, set its title, create a `len(data) × len(data[0])` table at a fixed
position (height 0.8 in per row), set column widths, fill and format the
cells.  `none` models the uncaught IndexError on `data[0]` for empty data or
on an out-of-range column or cell access. -/
def create_table_slide (prs : Presentation) (title : String)
    (data : List (List String)) (col_widths : Option (List Nat)) : Option Presentation :=
  match data with
  | [] => none
  | r0 :: _ =>
      let rows := data.length
      let cols := r0.length
      let t0 := addTable rows cols (Inches10 10) (Inches10 20) (Inches10 80)
        (Inches10 (8 * rows))
      (widthsResult t0.colWidths col_widths).bind (fun widths =>
        (fillRows t0.cells data true).map (fun cells =>
          { prs with slides := prs.slides ++
            [{ layoutIdx := 5
               titleText := title
               placeholder1 := none
               tables := [{ t0 with colWidths := widths, cells := cells }] }] }))

/-- Folie 8: the Decision Tree confusion matrix literal (`table_data`). -/
def table_data : List (List String) :=
  [["", "Predicted: nein", "Predicted: ja"],
   ["Actual: nein", "5466 (TN)", "193 (FP)"],
   ["Actual: ja", "300 (FN)", "36 (TP)"]]

/-- Folie 12: the model comparison literal (`comparison_data`). -/
def comparison_data : List (List String) :=
  [["Modell", "Accuracy", "Precision", "Recall", "TP", "Bewertung"],
   ["Decision Tree", "91,78%", "15,72%", "9,33%", "36", "⭐ GEWÄHLT"],
   ["Logistic Regression", "94,40%", "0%", "0%", "0", "❌ Unbrauchbar"],
   ["Naive Bayes", "94,44%", "50,00%", "0,89%", "3", "⚠ Zu konservativ"]]

/-- The slide-building part of `main()`: `Presentation()`, the slide size
assignments, then the fifteen helper calls in source order.  The two
`create_table_slide` calls are the only fallible steps. -/
def buildSlides : Option Presentation := do
  let prs : Presentation :=
    { slideWidth := Inches10 100, slideHeight := Inches10 75, slides := [] }
  let prs := create_title_slide prs
    "Data Mining: Betrugserkennung"
    "Klassifikation von E-Commerce Bestellungen"
  let prs := create_content_slide prs "Agenda" (some
    [(0, "1. Einführung und Problemstellung"),
     (0, "2. Datenanalyse und -vorbereitung (CRISP-DM)"),
     (0, "3. Attributanalyse und Feature Engineering"),
     (0, "4. Modellauswahl und Training"),
     (0, "5. Modellbewertung und Optimierung"),
     (0, "6. Vorhersage und Fazit")])
  let prs := create_content_slide prs "1. Einführung und Problemstellung" (some
    [(0, "Szenario: Betrugserkennung im Online-Handel"),
     (1, "Herausforderung: Ware gegen Geld nicht direkt umsetzbar"),
     (1, "Risiko: Bestellungen ohne Zahlungseingang"),
     (0, "Data Mining Aufgabe:"),
     (1, "Typ: Klassifikationsproblem (Überwachtes Lernen)"),
     (1, "Zielattribut: TARGET_BETRUG (diskret: ja/nein)"),
     (0, "Datensatz: 30.000 E-Commerce Bestellungen"),
     (1, "Training: 24.000 Datensätze (80% - Holdout-Methode)"),
     (1, "Test: 6.000 Datensätze (20%)"),
     (1, "Klassifizierung: 20.000 neue Bestellungen")])
  let prs := create_content_slide prs "2. Datenanalyse (CRISP-DM: Data Understanding)" (some
    [(0, "Explorative Datenanalyse der Trainingsdaten:"),
     (1, "30.000 Bestellungen mit 43 Attributen"),
     (1, "Zielattribut TARGET_BETRUG analysiert"),
     (0, "Zentrale Erkenntnis: Stark unbalancierte Klassen"),
     (1, "Nur 1.746 Betrugsfälle (5,82%)"),
     (1, "28.254 legitime Bestellungen (94,18%)"),
     (0, "Implikation für Data Mining:"),
     (1, "❌ Accuracy allein als Gütemaß ungeeignet"),
     (1, "✓ Precision & Recall sind entscheidend"),
     (1, "Modell könnte \"immer nein\" vorhersagen (94% Accuracy!)"),
     (1, "→ Betrugsfälle würden nicht erkannt werden")])
  let prs := create_content_slide prs
    "3. Attributanalyse & Feature Engineering (Data Preparation)" (some
    [(0, "Analyse der Artikelnummer-Attribute (ANUMMER_01 bis ANUMMER_10):"),
     (1, "Repräsentieren bestellte Artikel (Artikelnummern)"),
     (1, "Datentyp: Diskret (kategorisch)"),
     (0, "Identifizierte Probleme:"),
     (1, "❌ Limitation: Maximal 10 Artikel erfassbar"),
     (1, "❌ Bei >10 Artikeln: Datenverlust"),
     (1, "❌ ANUMMER_02 bis ANUMMER_10 größtenteils NULL"),
     (1, "❌ Hohe Dimensionalität mit vielen Leereinträgen"),
     (0, "Feature Engineering - Optimierungsansatz:"),
     (1, "✓ Zusammenführung zu ANUMMER_LIST (aggregiert)"),
     (1, "✓ Reduzierung der Dimensionalität (10→1 Attribut)"),
     (1, "✓ Bessere Datenqualität für ML-Algorithmen")])
  let prs := create_content_slide prs
    "4. Modellauswahl und Training (CRISP-DM: Modeling)" (some
    [(0, "Implementierung: KNIME Analytics Platform"),
     (0, "Trainingsmethode: Holdout-Methode"),
     (1, "80% Trainingsdaten (24.000 Datensätze)"),
     (1, "20% Testdaten (6.000 Datensätze)"),
     (0, "Drei Klassifikationsverfahren (Überwachtes Lernen):"),
     (1, "1. Decision Tree (Entscheidungsbaum, Gini Index)"),
     (2, "Trennscharfe Entscheidungsregeln"),
     (1, "2. Logistic Regression (Logistische Regression)"),
     (2, "Lineare Trennung der Klassen"),
     (1, "3. Naive Bayes Classifier"),
     (2, "Probabilistischer Ansatz, bedingte Wahrscheinlichkeiten")])
  let prs := create_content_slide prs "5. Modellbewertung (CRISP-DM: Evaluation)" (some
    [(0, "Bewertung mit Konfusionsmatrix:"),
     (1, "True Positive (TP): Betrug korrekt als Betrug erkannt"),
     (1, "True Negative (TN): Kein Betrug korrekt als legitim erkannt"),
     (1, "False Positive (FP): Legitim fälschlich als Betrug erkannt"),
     (1, "False Negative (FN): Betrug fälschlich als legitim erkannt"),
     (0, "Gütekriterien:"),
     (1, "Accuracy = (TP+TN) / Gesamt"),
     (2, "Gesamtgenauigkeit aller Vorhersagen"),
     (1, "Precision = TP / (TP+FP)"),
     (2, "Wie viele Betrugsvorhersagen waren korrekt?"),
     (1, "Recall = TP / (TP+FN)"),
     (2, "Wie viele Betrugsfälle wurden erkannt?")])
  let prs ← create_table_slide prs "5a. Decision Tree - Confusion Matrix" table_data
    (some [30, 25, 25])
  let prs := create_content_slide prs "5a. Decision Tree - Metriken" (some
    [(0, "Berechnete Gütekriterien:"),
     (1, "Accuracy: 91,78% = (5466+36) / 6000"),
     (1, "Precision: 15,72% = 36 / (36+193)"),
     (1, "Recall: 9,33% = 36 / (36+300)"),
     (0, "Interpretation:"),
     (1, "✓ Erkennt tatsächlich Betrugsfälle (36 TP)"),
     (1, "✓ Besser als \"immer nein\" Baseline"),
     (1, "⚠ Hohe False-Positive Rate (193 Fehlalarme)"),
     (1, "⚠ Niedriger Recall (300 FN, 89% nicht erkannt)"),
     (0, "Bewertung: Einziges Modell mit relevantem Recall")])
  let prs := create_content_slide prs "5b. Logistic Regression - Ergebnisse" (some
    [(0, "Confusion Matrix:"),
     (1, "TN: 5666, FP: 0, FN: 336, TP: 0"),
     (1, "Alle Vorhersagen: \"nein\" (kein Betrug)"),
     (0, "Berechnete Metriken:"),
     (1, "Accuracy: 94,40% = 5666 / 6000"),
     (1, "Precision: 0% (keine Betrugsvorhersagen)"),
     (1, "Recall: 0% = 0 / 336 (alle Betrugsfälle übersehen)"),
     (0, "❌ Fazit: Modell unbrauchbar für Betrugserkennung"),
     (1, "Paradox: Hohe Accuracy durch Class Imbalance"),
     (1, "Modell hat aus Unbalance gelernt, immer \"nein\" zu sagen"),
     (1, "Kein einziger Betrugsfall erkannt (0 TP)")])
  let prs := create_content_slide prs "5c. Naive Bayes - Ergebnisse" (some
    [(0, "Confusion Matrix:"),
     (1, "TN: 5663, FP: 3, FN: 333, TP: 3"),
     (0, "Berechnete Metriken:"),
     (1, "Accuracy: 94,44% = (5663+3) / 6000"),
     (1, "Precision: 50,00% = 3 / (3+3)"),
     (1, "Recall: 0,89% = 3 / (3+333)"),
     (0, "Bewertung:"),
     (1, "✓ Hohe Precision bei Betrugsvorhersagen (50%)"),
     (1, "✓ Sehr wenig Fehlalarme (nur 3 FP)"),
     (1, "❌ Extrem niedriger Recall (0,89%)"),
     (1, "❌ Erkennt fast keine Betrugsfälle (nur 3 von 336)"),
     (0, "Fazit: Zu konservativ, praktisch unbrauchbar")])
  let prs ← create_table_slide prs "5d. Vergleichende Modellbewertung" comparison_data
    (some [23, 13, 13, 13, 8, 20])
  let prs := create_content_slide prs "5e. Maßnahmen zur Ergebnisverbesserung" (some
    [(0, "Hauptproblem: Class Imbalance (5,82% Betrug)"),
     (0, "Resampling-Techniken:"),
     (1, "Undersampling: Reduzierung der Mehrheitsklasse"),
     (2, "Zufällige Auswahl von legitimen Bestellungen"),
     (1, "SMOTE (Synthetic Minority Over-sampling Technique)"),
     (2, "Synthetische Generierung zusätzlicher Betrugsfälle"),
     (0, "Algorithmus-Optimierung:"),
     (1, "Hyperparameter-Tuning (Complexity_Penalty, Minimum_Support)"),
     (1, "Cost-Sensitive Learning (höhere Kosten für FN)"),
     (0, "Weitere Ansätze:"),
     (1, "Ensemble-Methoden (Random Forest, XGBoost)"),
     (1, "Feature Engineering (ANUMMER_LIST verwenden)")])
  let prs := create_content_slide prs "6. Vorhersage (CRISP-DM: Deployment)" (some
    [(0, "Gewähltes Modell für Produktivbetrieb:"),
     (1, "✓ Decision Tree (Entscheidungsbaum)"),
     (0, "Begründung der Auswahl:"),
     (1, "Einziges Modell mit relevantem Recall (9,33%)"),
     (1, "Erkennt tatsächlich Betrugsfälle (36 TP)"),
     (1, "Trade-off: Niedrigere Accuracy, aber Betrugserkennnung"),
     (0, "Anwendung auf Klassifizierungsdaten:"),
     (1, "20.000 neue Bestellungen klassifiziert"),
     (1, "Datei: Klassifizierungsdaten-tree-predictions.csv"),
     (0, "Kritische Einschätzung:"),
     (1, "Performance noch verbesserungswürdig"),
     (1, "Optimierungsmaßnahmen empfohlen (Resampling, etc.)")])
  let prs := create_content_slide prs "Zusammenfassung und Ausblick" (some
    [(0, "Zentrale Erkenntnisse:"),
     (1, "Class Imbalance größte Herausforderung bei Betrugserkennung"),
     (1, "Accuracy irreführend bei unbalancierten Daten"),
     (1, "Precision & Recall entscheidende Gütekriterien"),
     (1, "CRISP-DM-Prozess systematisch durchgeführt"),
     (0, "Durchgeführte Schritte:"),
     (1, "✓ Data Understanding (Class Imbalance identifiziert)"),
     (1, "✓ Data Preparation (ANUMMER Feature Engineering)"),
     (1, "✓ Modeling (3 Klassifikationsverfahren trainiert)"),
     (1, "✓ Evaluation (Konfusionsmatrix, Metriken)"),
     (1, "✓ Deployment (Decision Tree für Vorhersage gewählt)"),
     (0, "Vielen Dank für Ihre Aufmerksamkeit!")])
  pure prs

/-- The fixed relative output path of `prs.save(output_file)`. -/
def outputPath : String := "Data_Mining_Betrugserkennung_Praesentation.pptx"

/-- Number of helper-function calls in `main`: 1 `create_title_slide`
+ 12 `create_content_slide` + 2 `create_table_slide`. -/
def mainHelperCallCount : Nat := 15

/-- Errors a run can terminate with: an out-of-range index during slide
construction, or a failing save (e.g. unwritable destination). -/
inductive PErr where
  | indexError
  | unwritable
deriving Repr, DecidableEq

/-- The run environment: whether the destination is writable, and the
timestamp the library stamps into the serialized file. -/
structure Env where
  saveFails : Bool
  timestamp : Nat
deriving Repr, DecidableEq

/-- A serialized presentation file: its slide content plus the save-time
metadata (the part of the binary encoding that differs between runs). -/
structure EncodedFile where
  content : Presentation
  stamp : Nat
deriving Repr, DecidableEq

/-- Observable outcome of a successful run: the in-memory presentation, the
file writes performed (path and bytes, in order) and the console lines. -/
structure World where
  presentation : Presentation
  fsWrites : List (String × EncodedFile)
  stdout : List String
deriving Repr, DecidableEq

/-- `prs.save(output_file)`: unconditionally serializes the presentation to
the given path, or raises when the destination is unwritable. -/
def save (e : Env) (prs : Presentation) (path : String) :
    Except PErr (String × EncodedFile) :=
  if e.saveFails then Except.error PErr.unwritable
  else Except.ok (path, { content := prs, stamp := e.timestamp })

/-- `main()`: build the slides, save the presentation, print the two summary
lines and the structure overview.  No failure is caught anywhere: an index
error during construction or a save failure propagates and no `World` is
produced. -/
def main (e : Env) : Except PErr World :=
  match buildSlides with
  | none => Except.error PErr.indexError
  | some prs =>
      match save e prs outputPath with
      | Except.error err => Except.error err
      | Except.ok wr =>
          Except.ok
            { presentation := prs
              fsWrites := [wr]
              stdout :=
                ["✓ Präsentation erfolgreich erstellt: " ++ outputPath,
                 "✓ Anzahl Folien: " ++ toString prs.slides.length,
                 "\nStruktur nach CRISP-DM:",
                 "  1. Einführung und Problemstellung",
                 "  2. Data Understanding (Class Imbalance)",
                 "  3. Data Preparation (Feature Engineering)",
                 "  4. Modeling (3 Klassifikationsverfahren)",
                 "  5. Evaluation (Konfusionsmatrix, Metriken)",
                 "  6. Deployment (Vorhersage)"] }

/-- The presentation `main` builds (the successful value of `buildSlides`). -/
def pres0 : Presentation :=
  buildSlides.getD { slideWidth := 0, slideHeight := 0, slides := [] }

/-- The console lines a successful run prints, in order: the two summary
lines, then the structure overview (its first line carries the leading
newline of the `print(f"\nStruktur ...")` call). -/
def consoleLines : List String :=
  ["✓ Präsentation erfolgreich erstellt: Data_Mining_Betrugserkennung_Praesentation.pptx",
   "✓ Anzahl Folien: 15",
   "\nStruktur nach CRISP-DM:",
   "  1. Einführung und Problemstellung",
   "  2. Data Understanding (Class Imbalance)",
   "  3. Data Preparation (Feature Engineering)",
   "  4. Modeling (3 Klassifikationsverfahren)",
   "  5. Evaluation (Konfusionsmatrix, Metriken)",
   "  6. Deployment (Vorhersage)"]

/-- The `World` of a successful run with save timestamp `ts`. -/
def mkWorld (ts : Nat) : World :=
  { presentation := pres0
    fsWrites := [(outputPath, { content := pres0, stamp := ts })]
    stdout := consoleLines }

/-- C1: running the script produces an output file whose slide count equals
the number of helper calls `main` makes (1 title + 12 content + 2 table
slides = 15, the fixed order of the driver). -/
theorem main_saved_slide_count_eq_helper_calls (ts : Nat) :
    ∃ w, main { saveFails := false, timestamp := ts } = Except.ok w ∧
      w.fsWrites.map (fun pr => pr.2.content.slides.length) = [mainHelperCallCount] :=
  ⟨mkWorld ts, rfl, rfl⟩

/-- C6: slides appear in the saved presentation exactly in the driver's call
order: the title slide (layout 0) first, then the content (layout 1) and
table (layout 5) slides in the fixed sequence of `main`'s calls — the two
table slides being the 8th and 12th slides (the only ones carrying a table
shape) — with no reordering of titles. -/
theorem slides_in_driver_call_order :
    Option.map (fun p => p.slides.map Slide.layoutIdx) buildSlides =
        some [0, 1, 1, 1, 1, 1, 1, 5, 1, 1, 1, 5, 1, 1, 1] ∧
      Option.map (fun p => p.slides.map Slide.titleText) buildSlides =
        some ["Data Mining: Betrugserkennung",
              "Agenda",
              "1. Einführung und Problemstellung",
              "2. Datenanalyse (CRISP-DM: Data Understanding)",
              "3. Attributanalyse & Feature Engineering (Data Preparation)",
              "4. Modellauswahl und Training (CRISP-DM: Modeling)",
              "5. Modellbewertung (CRISP-DM: Evaluation)",
              "5a. Decision Tree - Confusion Matrix",
              "5a. Decision Tree - Metriken",
              "5b. Logistic Regression - Ergebnisse",
              "5c. Naive Bayes - Ergebnisse",
              "5d. Vergleichende Modellbewertung",
              "5e. Maßnahmen zur Ergebnisverbesserung",
              "6. Vorhersage (CRISP-DM: Deployment)",
              "Zusammenfassung und Ausblick"] ∧
      Option.map (fun p => p.slides.map (fun s => s.tables.length)) buildSlides =
        some [0, 0, 0, 0, 0, 0, 0, 1, 0, 0, 0, 1, 0, 0, 0] :=
  ⟨rfl, rfl, rfl⟩

/-- C3 counterexample: the script's console output is not exactly two lines;
a successful run prints nine lines (the two summary lines are followed by a
seven-line structure overview). -/
theorem console_output_not_exactly_two_lines :
    (main { saveFails := false, timestamp := 0 }).toOption.map (fun w => w.stdout.length) =
        some 9 ∧ (9 : Nat) ≠ 2 :=
  ⟨rfl, by decide⟩

/-- C3 (amended): a successful run prints nine console lines; the first two
are the summary lines reporting the output filename and the slide count, and
they are followed by a structure-overview header and six structure lines. -/
theorem console_output_summary_then_structure (ts : Nat) :
    ∃ w, main { saveFails := false, timestamp := ts } = Except.ok w ∧
      w.stdout = consoleLines ∧
      w.stdout.length = 9 ∧
      w.stdout.take 2 =
        ["✓ Präsentation erfolgreich erstellt: " ++ outputPath,
         "✓ Anzahl Folien: " ++ toString mainHelperCallCount] :=
  ⟨mkWorld ts, rfl, rfl, rfl, rfl⟩

/-- C7: nothing in the program catches an error: when the destination is
unwritable the failure propagates unhandled out of `main` and no result
`World` is produced, and otherwise the run completes. -/
theorem failures_propagate_unhandled (e : Env) :
    (e.saveFails = true → main e = Except.error PErr.unwritable) ∧
    (e.saveFails = false → ∃ w, main e = Except.ok w) := by
  cases e with
  | mk b ts =>
    cases b
    · exact ⟨fun h => Bool.noConfusion h, fun _ => ⟨mkWorld ts, rfl⟩⟩
    · exact ⟨fun _ => rfl, fun h => Bool.noConfusion h⟩

/-- C7 witness: at a concrete unwritable environment the run errors, at a
concrete writable one it completes. -/
theorem failures_propagate_unhandled_witness :
    main { saveFails := true, timestamp := 0 } = Except.error PErr.unwritable ∧
      ∃ w, main { saveFails := false, timestamp := 0 } = Except.ok w :=
  ⟨(failures_propagate_unhandled { saveFails := true, timestamp := 0 }).1 rfl,
   (failures_propagate_unhandled { saveFails := false, timestamp := 0 }).2 rfl⟩

/-- Any successful run's `World` is `mkWorld` of its timestamp. -/
theorem main_ok_eq (e : Env) (w : World) (h : main e = Except.ok w) :
    w = mkWorld e.timestamp := by
  cases e with
  | mk b ts =>
    cases b
    · have hm : main { saveFails := false, timestamp := ts } = Except.ok (mkWorld ts) := rfl
      rw [hm] at h
      cases h
      rfl
    · have hm : main { saveFails := true, timestamp := ts } =
          Except.error PErr.unwritable := rfl
      rw [hm] at h
      exact Except.noConfusion h

/-- All run texts of a paragraph. -/
def runTexts (p : Paragraph) : List String := p.runs.map Run.text

/-- All texts of a text frame, paragraph by paragraph. -/
def tfTexts (tf : TextFrame) : List String := tf.paragraphs.flatMap runTexts

/-- All cell texts of a table, row by row. -/
def tableTexts (t : Table) : List String :=
  t.cells.flatMap (fun row => row.flatMap (fun c => tfTexts c.tf))

/-- All texts of a slide: title, then placeholder texts, then table texts. -/
def slideTexts (s : Slide) : List String :=
  s.titleText ::
    ((match s.placeholder1 with
      | none => []
      | some tf => tfTexts tf) ++ s.tables.flatMap tableTexts)

/-- All texts of a presentation, slide by slide. -/
def presTexts (p : Presentation) : List (List String) := p.slides.map slideTexts

/-- C4: re-running the script is idempotent in content: any two successful
runs of `main` (whatever their timestamps) produce presentations with the
same slide count and identical text in every slide — the content-producing
part of `main` is a deterministic function of no inputs. -/
theorem main_content_deterministic (e1 e2 : Env) (w1 w2 : World)
    (h1 : main e1 = Except.ok w1) (h2 : main e2 = Except.ok w2) :
    w1.presentation.slides.length = w2.presentation.slides.length ∧
      presTexts w1.presentation = presTexts w2.presentation := by
  rw [main_ok_eq e1 w1 h1, main_ok_eq e2 w2 h2]
  exact ⟨rfl, rfl⟩

/-- A default `World`, used only to name concrete run results. -/
def defaultWorld : World :=
  { presentation := { slideWidth := 0, slideHeight := 0, slides := [] }
    fsWrites := []
    stdout := [] }

/-- The concrete `World` of a run at timestamp 0. -/
def worldA : World := (main { saveFails := false, timestamp := 0 }).toOption.getD defaultWorld

/-- The concrete `World` of a run at timestamp 7. -/
def worldB : World := (main { saveFails := false, timestamp := 7 }).toOption.getD defaultWorld

/-- C4 witness: two concrete runs with different timestamps succeed and
agree on slide count and on every slide text. -/
theorem main_content_deterministic_witness :
    main { saveFails := false, timestamp := 0 } = Except.ok worldA ∧
      main { saveFails := false, timestamp := 7 } = Except.ok worldB ∧
      (worldA.presentation.slides.length = worldB.presentation.slides.length ∧
        presTexts worldA.presentation = presTexts worldB.presentation) :=
  ⟨rfl, rfl,
   main_content_deterministic { saveFails := false, timestamp := 0 }
     { saveFails := false, timestamp := 7 } worldA worldB rfl rfl⟩

/-- A filesystem state: what content, if any, each path holds. -/
def applyWrites (fs : String → Option EncodedFile) (ws : List (String × EncodedFile)) :
    String → Option EncodedFile :=
  ws.foldl (fun f wr => fun p => if p = wr.1 then some wr.2 else f p) fs

/-- C5: a successful run performs exactly one file write, to the fixed
relative path, leaving the new serialized presentation there regardless of
what the filesystem held before (unconditional overwrite), and touches no
other path. -/
theorem main_single_write_fixed_path (e : Env) (fs : String → Option EncodedFile)
    (h : e.saveFails = false) :
    ∃ w, main e = Except.ok w ∧
      w.fsWrites = [(outputPath, { content := w.presentation, stamp := e.timestamp })] ∧
      applyWrites fs w.fsWrites outputPath =
        some { content := w.presentation, stamp := e.timestamp } ∧
      ∀ p, p ≠ outputPath → applyWrites fs w.fsWrites p = fs p := by
  cases e with
  | mk b ts =>
    cases b
    · refine ⟨mkWorld ts, rfl, rfl, ?_, ?_⟩
      · simp [applyWrites, mkWorld]
      · intro p hp
        simp [applyWrites, mkWorld, hp]
    · exact Bool.noConfusion h

/-- A filesystem with no file at any path. -/
def emptyFS : String → Option EncodedFile := fun _ => none

/-- C5 witness: a concrete writable run over the empty filesystem. -/
theorem main_single_write_fixed_path_witness :
    ({ saveFails := false, timestamp := 3 } : Env).saveFails = false ∧
      (∃ w, main { saveFails := false, timestamp := 3 } = Except.ok w ∧
        w.fsWrites =
          [(outputPath,
            { content := w.presentation
              stamp := ({ saveFails := false, timestamp := 3 } : Env).timestamp })] ∧
        applyWrites emptyFS w.fsWrites outputPath =
          some { content := w.presentation
                 stamp := ({ saveFails := false, timestamp := 3 } : Env).timestamp } ∧
        ∀ p, p ≠ outputPath → applyWrites emptyFS w.fsWrites p = emptyFS p) :=
  ⟨rfl, main_single_write_fixed_path { saveFails := false, timestamp := 3 } emptyFS rfl⟩

/-- Two text frames with the same paragraphs are equal. -/
theorem textFrame_eq (a b : TextFrame) (h : a.paragraphs = b.paragraphs) : a = b := by
  cases a
  cases b
  cases h
  rfl

/-- The `add_paragraph` fold appends one bullet paragraph per pair, in order. -/
theorem foldl_appendBullet (rest : List (Nat × String)) (acc : List Paragraph) :
    (rest.foldl appendBullet { paragraphs := acc }).paragraphs =
      acc ++ rest.map bulletParagraph := by
  induction rest generalizing acc with
  | nil => simp
  | cons q r ih =>
    show (r.foldl appendBullet { paragraphs := acc ++ [bulletParagraph q] }).paragraphs = _
    rw [ih]
    simp

/-- On a cleared text frame the bullet loop writes exactly the bullet
paragraphs of the pairs, in order. -/
theorem applyBullets_cleared (q : Nat × String) (rest : List (Nat × String)) :
    applyBullets { paragraphs := [blankParagraph] } (q :: rest) =
      { paragraphs := (q :: rest).map bulletParagraph } := by
  apply textFrame_eq
  show (rest.foldl appendBullet { paragraphs := [bulletParagraph q] }).paragraphs = _
  rw [foldl_appendBullet]
  rfl

/-- C9: with `bullet_points` equal to `None` or the empty list,
`create_content_slide` still appends exactly one slide with its title set
and leaves the body placeholder's text frame as the layout provides it;
with a non-empty list it writes exactly one paragraph per `(level, text)`
pair, in order, with the given text and indent level. -/
theorem content_slide_body_behavior (prs : Presentation) (title : String) :
    (create_content_slide prs title none).slides =
        prs.slides ++ [{ layoutIdx := 1, titleText := title,
                         placeholder1 := some layoutBodyTF, tables := [] }] ∧
      (create_content_slide prs title (some [])).slides =
        prs.slides ++ [{ layoutIdx := 1, titleText := title,
                         placeholder1 := some layoutBodyTF, tables := [] }] ∧
      ∀ bps : List (Nat × String), bps ≠ [] →
        (create_content_slide prs title (some bps)).slides =
          prs.slides ++ [{ layoutIdx := 1, titleText := title,
                           placeholder1 := some { paragraphs := bps.map bulletParagraph },
                           tables := [] }] := by
  refine ⟨rfl, rfl, ?_⟩
  intro bps hne
  cases bps with
  | nil => exact absurd rfl hne
  | cons q rest =>
    show prs.slides ++
        [{ layoutIdx := 1, titleText := title,
           placeholder1 := some (applyBullets { paragraphs := [blankParagraph] } (q :: rest)),
           tables := [] }] = _
    rw [applyBullets_cleared]

/-- An empty presentation with the slide size `main` sets. -/
def basePres : Presentation :=
  { slideWidth := Inches10 100, slideHeight := Inches10 75, slides := [] }

/-- C9 witness: a concrete single-bullet call writes exactly that bullet. -/
theorem content_slide_body_behavior_witness :
    ([(0, "Punkt")] : List (Nat × String)) ≠ [] ∧
      (create_content_slide basePres "Titel" (some [(0, "Punkt")])).slides =
        basePres.slides ++
          [{ layoutIdx := 1, titleText := "Titel",
             placeholder1 := some { paragraphs := [(0, "Punkt")].map bulletParagraph },
             tables := [] }] :=
  ⟨by simp, (content_slide_body_behavior basePres "Titel").2.2 [(0, "Punkt")] (by simp)⟩

/-- Unfolding equation of `create_table_slide` on non-empty data. -/
theorem create_table_slide_cons (prs : Presentation) (title : String)
    (r0 : List String) (rest : List (List String)) (cw : Option (List Nat)) :
    create_table_slide prs title (r0 :: rest) cw =
      (widthsResult (List.replicate r0.length (Inches10 80 / r0.length)) cw).bind
        (fun widths =>
          (fillRows (List.replicate (r0 :: rest).length (List.replicate r0.length newCell))
              (r0 :: rest) true).map (fun cells =>
            { prs with slides := prs.slides ++
              [{ layoutIdx := 5
                 titleText := title
                 placeholder1 := none
                 tables := [{ nRows := (r0 :: rest).length
                              nCols := r0.length
                              left := Inches10 10
                              top := Inches10 20
                              width := Inches10 80
                              height := Inches10 (8 * (r0 :: rest).length)
                              colWidths := widths
                              cells := cells }] }] })) := rfl

/-- Inversion of a successful `create_table_slide` call: the data was
non-empty, the width and fill loops succeeded, and the result appends one
layout-5 slide carrying exactly one table built from them. -/
theorem create_table_slide_inv (prs : Presentation) (title : String)
    (data : List (List String)) (cw : Option (List Nat)) (p2 : Presentation)
    (h : create_table_slide prs title data cw = some p2) :
    ∃ r0 rest widths cells,
      data = r0 :: rest ∧
      widthsResult (List.replicate r0.length (Inches10 80 / r0.length)) cw = some widths ∧
      fillRows (List.replicate (r0 :: rest).length (List.replicate r0.length newCell))
          (r0 :: rest) true = some cells ∧
      p2.slides = prs.slides ++
        [{ layoutIdx := 5
           titleText := title
           placeholder1 := none
           tables := [{ nRows := (r0 :: rest).length
                        nCols := r0.length
                        left := Inches10 10
                        top := Inches10 20
                        width := Inches10 80
                        height := Inches10 (8 * (r0 :: rest).length)
                        colWidths := widths
                        cells := cells }] }] := by
  cases data with
  | nil => exact Option.noConfusion h
  | cons r0 rest =>
    rw [create_table_slide_cons] at h
    rw [Option.bind_eq_some] at h
    obtain ⟨widths, hw, h⟩ := h
    rw [Option.map_eq_some'] at h
    obtain ⟨cells, hf, h⟩ := h
    subst h
    exact ⟨r0, rest, widths, cells, rfl, hw, hf, rfl⟩

/-- C10: each single helper call appends exactly one slide (the slide count
grows by exactly one) and leaves every previously added slide and its
content unchanged (the prior slide list is a prefix of the new one). -/
theorem helpers_append_exactly_one_slide (prs : Presentation) (t sub : String)
    (bps : Option (List (Nat × String))) (data : List (List String))
    (cw : Option (List Nat)) (p2 : Presentation) :
    ((create_title_slide prs t sub).slides.length = prs.slides.length + 1 ∧
      ∃ s, (create_title_slide prs t sub).slides = prs.slides ++ [s]) ∧
    ((create_content_slide prs t bps).slides.length = prs.slides.length + 1 ∧
      ∃ s, (create_content_slide prs t bps).slides = prs.slides ++ [s]) ∧
    (create_table_slide prs t data cw = some p2 →
      p2.slides.length = prs.slides.length + 1 ∧ ∃ s, p2.slides = prs.slides ++ [s]) := by
  refine ⟨⟨?_, ⟨_, rfl⟩⟩, ⟨?_, ⟨_, rfl⟩⟩, ?_⟩
  · simp [create_title_slide]
  · simp [create_content_slide]
  · intro h
    obtain ⟨r0, rest, widths, cells, hd, hw, hf, hs⟩ :=
      create_table_slide_inv prs t data cw p2 h
    constructor
    · rw [hs]
      simp
    · exact ⟨_, hs⟩

/-- The result of the driver's second table call, as a named presentation. -/
def tableDemo2 : Presentation :=
  (create_table_slide basePres "5d. Vergleichende Modellbewertung" comparison_data
    (some [23, 13, 13, 13, 8, 20])).getD basePres

/-- C10 witness: the driver's second table call on an empty presentation
appends exactly one slide. -/
theorem helpers_append_exactly_one_slide_witness :
    create_table_slide basePres "5d. Vergleichende Modellbewertung" comparison_data
        (some [23, 13, 13, 13, 8, 20]) = some tableDemo2 ∧
      (tableDemo2.slides.length = basePres.slides.length + 1 ∧
        ∃ s, tableDemo2.slides = basePres.slides ++ [s]) :=
  ⟨rfl,
   (helpers_append_exactly_one_slide basePres "5d. Vergleichende Modellbewertung" "Untertitel"
      none comparison_data (some [23, 13, 13, 13, 8, 20]) tableDemo2).2.2 rfl⟩

/-- Safety precondition of `create_table_slide`: non-empty data, every row
no longer than the first row, and `col_widths` (when given) no longer than
the first row. -/
def tableSafePre (data : List (List String)) (cw : Option (List Nat)) : Prop :=
  data ≠ [] ∧ (∀ r ∈ data, r.length ≤ (data.headD []).length) ∧
    (cw.getD []).length ≤ (data.headD []).length

/-- The width loop succeeds when there are at most as many widths as columns. -/
theorem setWidths_isSome (ws us : List Nat) (h : us.length ≤ ws.length) :
    (setWidths ws us).isSome = true := by
  induction us generalizing ws with
  | nil => cases ws <;> rfl
  | cons u us2 ih =>
    cases ws with
    | nil => simp at h
    | cons w ws2 =>
      obtain ⟨v, hv⟩ := Option.isSome_iff_exists.mp (ih ws2 (Nat.le_of_succ_le_succ h))
      simp [setWidths, hv]

/-- The cell loop over one row succeeds when the row is no longer than the
cell row. -/
theorem fillCells_isSome (cs : List Cell) (ts : List String) (hdr : Bool)
    (h : ts.length ≤ cs.length) : (fillCells cs ts hdr).isSome = true := by
  induction ts generalizing cs with
  | nil => cases cs <;> rfl
  | cons t ts2 ih =>
    cases cs with
    | nil => simp at h
    | cons c cs2 =>
      obtain ⟨v, hv⟩ := Option.isSome_iff_exists.mp (ih cs2 (Nat.le_of_succ_le_succ h))
      simp [fillCells, hv]

/-- The row loop succeeds when there are at most as many data rows as grid
rows, every grid row has `n` cells and every data row fits in `n` cells. -/
theorem fillRows_isSome (n : Nat) (g : List (List Cell)) (ds : List (List String))
    (b : Bool) (h1 : ds.length ≤ g.length) (h2 : ∀ r ∈ g, r.length = n)
    (h3 : ∀ d ∈ ds, d.length ≤ n) : (fillRows g ds b).isSome = true := by
  induction ds generalizing g b with
  | nil => cases g <;> rfl
  | cons d ds2 ih =>
    cases g with
    | nil => simp at h1
    | cons r g2 =>
      have hr : d.length ≤ r.length := by
        rw [h2 r (List.mem_cons_self r g2)]
        exact h3 d (List.mem_cons_self d ds2)
      obtain ⟨r2, hr2⟩ := Option.isSome_iff_exists.mp (fillCells_isSome r d b hr)
      obtain ⟨g3, hg3⟩ := Option.isSome_iff_exists.mp
        (ih g2 false (Nat.le_of_succ_le_succ h1)
          (fun r3 hr3 => h2 r3 (List.mem_cons_of_mem r hr3))
          (fun d2 hd2 => h3 d2 (List.mem_cons_of_mem d hd2)))
      simp [fillRows, hr2, hg3]

/-- C8: under the precondition (non-empty data, rows no longer than row 0,
`col_widths` no longer than row 0) every index access of `create_table_slide`
is in bounds and the call succeeds; on empty data the `data[0]` access fails. -/
theorem table_slide_index_safety (prs : Presentation) (t : String)
    (data : List (List String)) (cw : Option (List Nat)) :
    (tableSafePre data cw → (create_table_slide prs t data cw).isSome = true) ∧
      create_table_slide prs t [] cw = none := by
  constructor
  · intro hp
    obtain ⟨hne, hrows, hcw⟩ := hp
    cases data with
    | nil => exact absurd rfl hne
    | cons r0 rest =>
      rw [create_table_slide_cons]
      have hwid : (widthsResult (List.replicate r0.length (Inches10 80 / r0.length))
          cw).isSome = true := by
        cases cw with
        | none => rfl
        | some ws =>
          cases ws with
          | nil => rfl
          | cons u us =>
            apply setWidths_isSome
            rw [List.length_map, List.length_replicate]
            exact hcw
      obtain ⟨widths, hw⟩ := Option.isSome_iff_exists.mp hwid
      have hfill : (fillRows
          (List.replicate (r0 :: rest).length (List.replicate r0.length newCell))
          (r0 :: rest) true).isSome = true := by
        apply fillRows_isSome r0.length
        · rw [List.length_replicate]
        · intro r hr
          rw [List.eq_of_mem_replicate hr, List.length_replicate]
        · intro d hd
          exact hrows d hd
      obtain ⟨cells, hc⟩ := Option.isSome_iff_exists.mp hfill
      rw [hw]
      simp only [Option.some_bind]
      rw [hc]
      rfl
  · rfl

/-- C8 witness: the driver's first table data with its column widths meets
the precondition and the call succeeds; the empty-data call fails. -/
theorem table_slide_index_safety_witness :
    tableSafePre table_data (some [30, 25, 25]) ∧
      (create_table_slide basePres "5a. Decision Tree - Confusion Matrix" table_data
          (some [30, 25, 25])).isSome = true :=
  ⟨by unfold tableSafePre; decide,
   (table_slide_index_safety basePres "5a. Decision Tree - Confusion Matrix" table_data
      (some [30, 25, 25])).1 (by unfold tableSafePre; decide)⟩

/-- A header cell as the claim describes it: solid fill and every run bold. -/
def boldHeaderCell (c : Cell) : Prop :=
  c.fill.isSolid = true ∧ ∀ p ∈ c.tf.paragraphs, ∀ r ∈ p.runs, r.font.bold = some true

/-- A data cell as the claim describes it: no fill and no run bold
(`bold` left `None`, i.e. inherited). -/
def plainCell (c : Cell) : Prop :=
  c.fill.isSolid = false ∧ ∀ p ∈ c.tf.paragraphs, ∀ r ∈ p.runs, r.font.bold = none

/-- The font all header-cell runs end up with. -/
def headerFont : Font :=
  { bold := some true, colorRGB := some (255, 255, 255), sizePt := some 12 }

/-- The font all data-cell runs end up with. -/
def bodyFont : Font := { bold := none, colorRGB := none, sizePt := some 11 }

/-- Value of the fill-loop body on a header cell. -/
theorem fillCell_true_eq (t : String) (c : Cell) :
    fillCell t true c =
      { tf := { paragraphs := [{ runs := [{ text := t, font := headerFont }], level := 0 }] }
        fill := { isSolid := true, foreColor := some (68, 114, 196) } } := rfl

/-- Value of the fill-loop body on a data cell: only the text frame changes. -/
theorem fillCell_false_eq (t : String) (c : Cell) :
    fillCell t false c =
      { tf := { paragraphs := [{ runs := [{ text := t, font := bodyFont }], level := 0 }] }
        fill := c.fill } := rfl

/-- The fill-loop body makes a header cell solid and bold. -/
theorem boldHeaderCell_fillCell (t : String) (c : Cell) :
    boldHeaderCell (fillCell t true c) := by
  constructor
  · rfl
  · intro p hp r hr
    have hp2 : p = { runs := [{ text := t, font := headerFont }], level := 0 } :=
      List.mem_singleton.mp hp
    subst hp2
    have hr2 : r = { text := t, font := headerFont } := List.mem_singleton.mp hr
    subst hr2
    rfl

/-- The fill-loop body keeps a data cell unfilled and its runs unbold. -/
theorem plainCell_fillCell (t : String) (c : Cell) (hc : c.fill.isSolid = false) :
    plainCell (fillCell t false c) := by
  constructor
  · exact hc
  · intro p hp r hr
    have hp2 : p = { runs := [{ text := t, font := bodyFont }], level := 0 } :=
      List.mem_singleton.mp hp
    subst hp2
    have hr2 : r = { text := t, font := bodyFont } := List.mem_singleton.mp hr
    subst hr2
    rfl

/-- A fresh table cell is unfilled with no runs. -/
theorem plainCell_newCell : plainCell newCell := by
  constructor
  · rfl
  · intro p hp r hr
    have hp2 : p = blankParagraph := List.mem_singleton.mp hp
    subst hp2
    exact absurd hr (List.not_mem_nil r)

/-- A fully covered header row comes out solid and bold in every cell. -/
theorem fillCells_header_bold (cs : List Cell) (ts : List String) (out : List Cell)
    (hlen : ts.length = cs.length) (h : fillCells cs ts true = some out) :
    ∀ c ∈ out, boldHeaderCell c := by
  induction ts generalizing cs out with
  | nil =>
    cases cs with
    | nil =>
      have h2 : out = [] := (Option.some_inj.mp h).symm
      subst h2
      intro c hc
      exact absurd hc (List.not_mem_nil c)
    | cons c cs2 => simp at hlen
  | cons t ts2 ih =>
    cases cs with
    | nil => simp at hlen
    | cons c cs2 =>
      have h2 : (fillCells cs2 ts2 true).map (fun rest => fillCell t true c :: rest) =
          some out := h
      rw [Option.map_eq_some'] at h2
      obtain ⟨rest, hrest, hout⟩ := h2
      intro x hx
      rw [← hout] at hx
      rcases List.mem_cons.mp hx with h1 | h1
      · subst h1
        exact boldHeaderCell_fillCell t c
      · exact ih cs2 rest (Nat.succ_injective hlen) hrest x h1

/-- A data row filled from plain cells comes out plain in every cell. -/
theorem fillCells_plain (cs : List Cell) (ts : List String) (out : List Cell)
    (hcs : ∀ c ∈ cs, plainCell c) (h : fillCells cs ts false = some out) :
    ∀ c ∈ out, plainCell c := by
  induction ts generalizing cs out with
  | nil =>
    cases cs with
    | nil =>
      have h2 : out = [] := (Option.some_inj.mp h).symm
      subst h2
      intro c hc
      exact absurd hc (List.not_mem_nil c)
    | cons c cs2 =>
      have h2 : out = c :: cs2 := (Option.some_inj.mp h).symm
      subst h2
      exact hcs
  | cons t ts2 ih =>
    cases cs with
    | nil => exact Option.noConfusion h
    | cons c cs2 =>
      have h2 : (fillCells cs2 ts2 false).map (fun rest => fillCell t false c :: rest) =
          some out := h
      rw [Option.map_eq_some'] at h2
      obtain ⟨rest, hrest, hout⟩ := h2
      intro x hx
      rw [← hout] at hx
      rcases List.mem_cons.mp hx with h1 | h1
      · subst h1
        exact plainCell_fillCell t c (hcs c (List.mem_cons_self c cs2)).1
      · exact ih cs2 rest (fun y hy => hcs y (List.mem_cons_of_mem c hy)) hrest x h1

/-- Data rows filled from plain grid rows come out plain in every cell. -/
theorem fillRows_plain (g : List (List Cell)) (ds : List (List String))
    (out : List (List Cell)) (hg : ∀ r ∈ g, ∀ c ∈ r, plainCell c)
    (h : fillRows g ds false = some out) : ∀ r ∈ out, ∀ c ∈ r, plainCell c := by
  induction ds generalizing g out with
  | nil =>
    cases g with
    | nil =>
      have h2 : out = [] := (Option.some_inj.mp h).symm
      subst h2
      intro r hr
      exact absurd hr (List.not_mem_nil r)
    | cons r g2 =>
      have h2 : out = r :: g2 := (Option.some_inj.mp h).symm
      subst h2
      exact hg
  | cons d ds2 ih =>
    cases g with
    | nil => exact Option.noConfusion h
    | cons r g2 =>
      have h2 : (fillCells r d false).bind (fun r2 =>
          (fillRows g2 ds2 false).map (fun g3 => r2 :: g3)) = some out := h
      rw [Option.bind_eq_some] at h2
      obtain ⟨r2, hr2, h3⟩ := h2
      rw [Option.map_eq_some'] at h3
      obtain ⟨g3, hg3, hout⟩ := h3
      intro rr hrr
      rw [← hout] at hrr
      rcases List.mem_cons.mp hrr with h1 | h1
      · rw [h1]
        exact fillCells_plain r d r2 (hg r (List.mem_cons_self r g2)) hr2
      · exact ih g2 g3 (fun y hy => hg y (List.mem_cons_of_mem r hy)) hg3 rr h1

/-- C2: every table slide `create_table_slide` produces has its header row 0
visually distinguished — every cell solidly filled and every run bold —
while in every data row `i > 0` no cell is filled and no run is bold; the
theorem covers every call, in particular both table slides the driver makes. -/
theorem table_header_row_distinguished (prs : Presentation) (title : String)
    (data : List (List String)) (cw : Option (List Nat)) (p2 : Presentation)
    (h : create_table_slide prs title data cw = some p2) :
    ∃ sl tb r0 rest, p2.slides = prs.slides ++ [sl] ∧ sl.tables = [tb] ∧
      tb.cells = r0 :: rest ∧
      (∀ c ∈ r0, boldHeaderCell c) ∧
      (∀ r ∈ rest, ∀ c ∈ r, plainCell c) := by
  obtain ⟨d0, drest, widths, cells, hd, hw, hf, hs⟩ :=
    create_table_slide_inv prs title data cw p2 h
  have hf2 : (fillCells (List.replicate d0.length newCell) d0 true).bind (fun r2 =>
      (fillRows (List.replicate drest.length (List.replicate d0.length newCell))
          drest false).map (fun g2 => r2 :: g2)) = some cells := hf
  rw [Option.bind_eq_some] at hf2
  obtain ⟨r2, hr2, hmap⟩ := hf2
  rw [Option.map_eq_some'] at hmap
  obtain ⟨g2, hg2, hcells⟩ := hmap
  refine ⟨_, _, r2, g2, hs, rfl, hcells.symm, ?_, ?_⟩
  · exact fillCells_header_bold (List.replicate d0.length newCell) d0 r2 (by simp) hr2
  · exact fillRows_plain (List.replicate drest.length (List.replicate d0.length newCell))
      drest g2
      (fun r hr c hc => by
        rw [List.eq_of_mem_replicate hr] at hc
        rw [List.eq_of_mem_replicate hc]
        exact plainCell_newCell)
      hg2

/-- The result of the driver's first table call, as a named presentation. -/
def tableDemo1 : Presentation :=
  (create_table_slide basePres "5a. Decision Tree - Confusion Matrix" table_data
    (some [30, 25, 25])).getD basePres

/-- C2 witness: on the driver's first table data the produced slide's table
has a solid bold header row 0 and plain data rows. -/
theorem table_header_row_distinguished_witness :
    create_table_slide basePres "5a. Decision Tree - Confusion Matrix" table_data
        (some [30, 25, 25]) = some tableDemo1 ∧
      ∃ sl tb r0 rest, tableDemo1.slides = basePres.slides ++ [sl] ∧ sl.tables = [tb] ∧
        tb.cells = r0 :: rest ∧
        (∀ c ∈ r0, boldHeaderCell c) ∧
        (∀ r ∈ rest, ∀ c ∈ r, plainCell c) :=
  ⟨rfl,
   table_header_row_distinguished basePres "5a. Decision Tree - Confusion Matrix" table_data
     (some [30, 25, 25]) tableDemo1 rfl⟩

end CreatePres
